import Mathlib

/-!
Shallow embedding of the trivia API backend (`backend/flaskr/__init__.py`):
the pagination helper, the SQL `ilike` pattern matcher used by question
search, the dictionary comprehensions used for category maps, and each
HTTP endpoint as a pure function from a database state (plus request
data) to a JSON-like response.  Python- and SQL-specific semantics
(slicing with negative indices, `LIKE` wildcards, dict insertion) are
modelled explicitly.
-/

namespace Trivia

/-! ### Python list slicing

`xs[a:b]` for arbitrary integer bounds: a negative index is taken
relative to the end of the list and clamped at 0; a nonnegative index is
clamped at the length. -/

/-- Normalise one Python slice index against a list of length `L`. -/
def pySliceIdx (i : Int) (L : Nat) : Nat :=
  if i < 0 then (i + L).toNat else min i.toNat L

/-- Python `xs[a:b]`: the elements at positions `[pySliceIdx a L, pySliceIdx b L)`. -/
def pySlice (xs : List α) (a b : Int) : List α :=
  (xs.take (pySliceIdx b xs.length)).drop (pySliceIdx a xs.length)

/-! ### Pagination (`paginate_questions`, lines 15-24)

`page = request.args.get("page", 1, type=int)` yields the integer query
parameter when present and `1` otherwise; the function then returns
`questions[start:end]` with `start = (page-1)*10`, `end = start+10`. -/

def QUESTIONS_PER_PAGE : Nat := 10

/-- `paginate_questions(request, selection)`: slice the formatted records
of `selection` with Python semantics at `[(page-1)*10, (page-1)*10+10)`,
where `page` defaults to 1 when the query parameter is absent. -/
def paginate_questions (pageArg : Option Int) (selection : List α) : List α :=
  let page := pageArg.getD 1
  let start := (page - 1) * (QUESTIONS_PER_PAGE : Int)
  pySlice selection start (start + (QUESTIONS_PER_PAGE : Int))

/-! ### SQL `ilike` pattern matching

`Question.question.ilike("%term%")` performs case-insensitive `LIKE`
matching: `%` matches any (possibly empty) character sequence, `_`
matches exactly one character, every other pattern character matches
itself up to case.  Implemented with explicit fuel so that it is
structurally recursive (the fuel strictly dominates the combined size of
pattern and text, see `likeGo_congr`). -/

/-- Case-insensitive character comparison used by `ilike`. -/
def eqCI (a b : Char) : Bool := a.toLower == b.toLower

/-- Fuelled `LIKE` matcher over explicit character lists. -/
def likeGo : Nat → List Char → List Char → Bool
  | 0, _, _ => false
  | f + 1, ps, t =>
    match ps with
    | [] => t.isEmpty
    | p :: ps' =>
      if p = '%' then
        likeGo f ps' t ||
          (match t with
           | [] => false
           | _ :: ts => likeGo f (p :: ps') ts)
      else
        match t with
        | [] => false
        | c :: ts => (if p = '_' then true else eqCI p c) && likeGo f ps' ts

/-- `LIKE` pattern match of `p` against full text `t` (case-insensitive,
as `ilike`): run `likeGo` with sufficient fuel. -/
def likeMatch (p t : List Char) : Bool :=
  likeGo (p.length + t.length + 1) p t

/-! ### Data model (`models.Question`, `models.Category`)

The `category` column of `Question` is string-typed: the category
endpoint filters by `category=str(category_id)`. -/

structure Question where
  id : Nat
  question : String
  answer : String
  category : String
  difficulty : Nat
deriving DecidableEq, Repr

structure Category where
  id : Nat
  type : String
deriving DecidableEq, Repr

/-- Database state underlying the two ORM tables. -/
structure DB where
  questions : List Question
  categories : List Category
deriving DecidableEq, Repr

/-- `Question.query.get(id)`: the row with the given primary key, if any. -/
def Question.get (db : DB) (qid : Nat) : Option Question :=
  db.questions.find? (fun q => q.id == qid)

/-- Insert a question into ascending-id position (helper for `orderById`). -/
def insertById (q : Question) : List Question → List Question
  | [] => [q]
  | x :: xs => if q.id ≤ x.id then q :: x :: xs else x :: insertById q xs

/-- `Question.query.order_by(Question.id).all()`: the rows sorted by id. -/
def orderById (qs : List Question) : List Question :=
  qs.foldr insertById []

/-! ### JSON responses

Each endpoint returns a JSON object; bodies are modelled as ordered
key/value lists.  A formatted question (`Question.format()`) carries the
same fields as the row, so `Question` itself stands for the formatted
record. -/

inductive Field where
  | fBool (b : Bool)
  | fNat (n : Nat)
  | fStr (s : String)
  | fNull
  | fQuestion (q : Question)
  | fQuestions (qs : List Question)
  | fCatMap (m : List (Nat × String))
deriving DecidableEq, Repr

structure Response where
  status : Nat
  body : List (String × Field)
deriving DecidableEq, Repr

/-- Look a key up in a JSON object body. -/
def lookupField (body : List (String × Field)) (k : String) : Option Field :=
  (body.find? (fun p => p.1 == k)).map (fun p => p.2)

/-- Whether a response body carries a boolean `success` member. -/
def hasSuccessBool (r : Response) : Bool :=
  match lookupField r.body "success" with
  | some (Field.fBool _) => true
  | _ => false

/-! ### Error handlers (lines 237-285) -/

def not_found : Response :=
  ⟨404, [("success", Field.fBool false), ("error", Field.fNat 404),
         ("message", Field.fStr "resource not found")]⟩

def unprocessable : Response :=
  ⟨422, [("success", Field.fBool false), ("error", Field.fNat 422),
         ("message", Field.fStr "unprocessable")]⟩

def bad_request : Response :=
  ⟨400, [("success", Field.fBool false), ("error", Field.fNat 400),
         ("message", Field.fStr "bad request")]⟩

def not_allowed : Response :=
  ⟨405, [("success", Field.fBool false), ("error", Field.fNat 405),
         ("message", Field.fStr "method not allowed")]⟩

def internal_server_error : Response :=
  ⟨500, [("success", Field.fBool false), ("error", Field.fNat 500),
         ("message", Field.fStr "internal server error")]⟩

/-! ### Python dict comprehension

`{category['id']: category['type'] for category in all_categories}`:
keys are inserted left to right, a repeated key overwrites the earlier
value in place. -/

/-- One Python dict insertion step. -/
def pyDictInsert (m : List (Nat × String)) (k : Nat) (v : String) :
    List (Nat × String) :=
  if m.any (fun p => p.1 == k) then
    m.map (fun p => if p.1 == k then (k, v) else p)
  else
    m ++ [(k, v)]

/-- A Python dict built by a comprehension over the given pairs. -/
def pyDict (ps : List (Nat × String)) : List (Nat × String) :=
  ps.foldl (fun m p => pyDictInsert m p.1 p.2) []

/-- The `id → type` dictionary both category-listing endpoints build. -/
def categoriesDict (cs : List Category) : List (Nat × String) :=
  pyDict (cs.map (fun c => (c.id, c.type)))

/-! ### `GET /categories` (`get_categories`, lines 54-71)

Queries all categories; aborts with 404 when the table is empty,
otherwise returns the `id → type` dictionary. -/

def get_categories (db : DB) : Response :=
  if db.categories.length == 0 then not_found
  else
    ⟨200, [("success", Field.fBool true),
           ("categories", Field.fCatMap (categoriesDict db.categories))]⟩

/-! ### `GET /questions` (`get_questions`, lines 75-97)

Queries questions ordered by id, paginates them, and aborts with 404
when the requested page is empty. -/

def get_questions (db : DB) (pageArg : Option Int) : Response :=
  let questions := orderById db.questions
  let paginated := paginate_questions pageArg questions
  if paginated.length == 0 then not_found
  else
    ⟨200, [("success", Field.fBool true),
           ("questions", Field.fQuestions paginated),
           ("categories", Field.fCatMap (categoriesDict db.categories)),
           ("current_category", Field.fNull),
           ("total_questions", Field.fNat questions.length)]⟩

/-! ### `DELETE /questions/<id>` (`delete_question`, lines 102-117)

The whole handler body sits in a `try:` with a bare `except:` that calls
`abort(422)`.  `abort(400)` raises an `HTTPException`, which the bare
`except:` also catches, so the inner computation is modelled as
`Except`, with the error carrying the aborted status code. -/

/-- The `try:` block of `delete_question`: abort 400 when the row is
missing, otherwise delete it (the first row with the id, as the ORM
deletes the fetched object) and report the new total. -/
def delete_question_try (db : DB) (qid : Nat) :
    Except Nat (Response × DB) :=
  match Question.get db qid with
  | none => Except.error 400
  | some _ =>
    let questions' := db.questions.eraseP (fun q => q.id == qid)
    Except.ok
      (⟨200, [("success", Field.fBool true),
              ("total_questions", Field.fNat questions'.length)]⟩,
       ⟨questions', db.categories⟩)

/-- The full handler: any exception escaping the `try:` block — the
`abort(400)` included — lands in the bare `except:`, which aborts 422. -/
def delete_question (db : DB) (qid : Nat) : Response × DB :=
  match delete_question_try db qid with
  | Except.ok r => r
  | Except.error _ => (unprocessable, db)

/-! ### `POST /questions` (`post_or_search_question`, lines 121-176)

One endpoint for both search and insertion: `if search_term:` chooses
the search branch exactly when `body.get('searchTerm', None)` is truthy,
i.e. present and not the empty string.  The insertion branch builds the
new row from the remaining body fields and returns a body *without* a
`success` member (`questions`, `totalQuestions`, `currentCategory`). -/

structure PostBody where
  question : String
  difficulty : Nat
  category : String
  answer : String
  searchTerm : Option String
deriving DecidableEq, Repr

/-- Python truthiness of `body.get('searchTerm', None)`: `None` and the
empty string are falsy. -/
def truthy : Option String → Bool
  | none => false
  | some s => !(s == "")

/-- The rows the search branch selects:
`Question.query.order_by(Question.id).filter(Question.question.ilike("%term%"))`. -/
def searchSelection (db : DB) (term : String) : List Question :=
  (orderById db.questions).filter
    (fun q => likeMatch ('%' :: (term.toList ++ ['%'])) q.question.toList)

/-- The handler: search when `searchTerm` is truthy, insert otherwise.
`newId` is the primary key the database assigns to the inserted row. -/
def post_or_search_question (db : DB) (pageArg : Option Int)
    (b : PostBody) (newId : Nat) : Response × DB :=
  if truthy b.searchTerm then
    let sel := searchSelection db (b.searchTerm.getD "")
    (⟨200, [("success", Field.fBool true),
            ("questions", Field.fQuestions (paginate_questions pageArg sel)),
            ("total_questions", Field.fNat sel.length)]⟩,
     db)
  else
    let q : Question := ⟨newId, b.question, b.answer, b.category, b.difficulty⟩
    let questions' := db.questions ++ [q]
    (⟨200, [("questions",
             Field.fQuestions (paginate_questions pageArg (orderById questions'))),
            ("totalQuestions", Field.fNat questions'.length),
            ("currentCategory", Field.fStr "none")]⟩,
     ⟨questions', db.categories⟩)

/-! ### `GET /categories/<id>/questions` (`search_category`, lines 182-203)

`one_or_none()` returns the single matching row, `None` when there is no
match, and raises when several rows match (an uncaught exception, served
by the 500 handler).  The question filter compares the string-typed
`category` column against `str(category_id)`; `total_questions` counts
the *whole* question table. -/

def one_or_none (cs : List Category) (catId : Nat) :
    Except Unit (Option Category) :=
  match cs.filter (fun c => c.id == catId) with
  | [] => Except.ok none
  | [c] => Except.ok (some c)
  | _ => Except.error ()

def search_category (db : DB) (catId : Nat) : Response :=
  match one_or_none db.categories catId with
  | Except.error _ => internal_server_error
  | Except.ok none => not_found
  | Except.ok (some cat) =>
    let questions := db.questions.filter (fun q => q.category == toString catId)
    ⟨200, [("success", Field.fBool true),
           ("questions", Field.fQuestions questions),
           ("total_questions", Field.fNat db.questions.length),
           ("current_category", Field.fStr cat.type)]⟩

/-! ### `POST /quizzes` (`quizzes`, lines 207-232)

Fetches *all* questions of the category (`category['id'] == 0` meaning
every category; the ORM compares the string-typed column with the
integer id, modelled as comparison with its decimal string).  It then
calls `random.choice(questions)` — which raises `IndexError` on an empty
list, caught by the bare `except:` as a 404 — and only afterwards
compares `len(previous_questions)` with the number of fetched questions:
equal lengths yield a bare success body, otherwise the randomly chosen
question is returned, previously seen or not.  `random.choice` is
modelled by an arbitrary index `pick`, reduced modulo the list length. -/

structure QuizBody where
  previous_questions : List Nat
  quiz_category_id : Nat
deriving DecidableEq, Repr

def quizzes (db : DB) (qb : QuizBody) (pick : Nat) : Response :=
  let questions :=
    if qb.quiz_category_id == 0 then db.questions
    else db.questions.filter (fun q => q.category == toString qb.quiz_category_id)
  if h : questions.length = 0 then not_found
  else
    let random_question := questions.get
      ⟨pick % questions.length, Nat.mod_lt _ (Nat.pos_of_ne_zero h)⟩
    if qb.previous_questions.length == questions.length then
      ⟨200, [("success", Field.fBool true)]⟩
    else
      ⟨200, [("success", Field.fBool true),
             ("question", Field.fQuestion random_question)]⟩

/-! ### Specification-side vocabulary

The spec describes question search as returning the questions whose
question text contains the search term as a case-insensitive substring;
`containsCI` renders exactly those words, independently of the `ilike`
pattern matcher the code applies. -/

/-- Lower-case a character list. -/
def lowerList (l : List Char) : List Char := l.map Char.toLower

/-- Case-insensitive substring containment, as the spec words it: some
suffix of the (lower-cased) text starts with the (lower-cased) needle. -/
def containsCI (needle hay : String) : Bool :=
  ((lowerList hay.toList).tails).any
    (fun t => (lowerList needle.toList).isPrefixOf t)

/-- A character list free of the SQL `LIKE` wildcards `%` and `_`. -/
def noWildL (l : List Char) : Bool :=
  l.all (fun c => !(c == '%') && !(c == '_'))

end Trivia

namespace Trivia

/-! ## Lemmas about Python slicing and pagination -/

theorem pySlice_nat_block (xs : List α) (s : Nat) :
    pySlice xs (s : Int) ((s : Int) + 10) = (xs.drop s).take 10 := by
  unfold pySlice pySliceIdx
  have h1 : ¬ ((s : Int) < 0) := by omega
  have h2 : ¬ ((s : Int) + 10 < 0) := by omega
  rw [if_neg h1, if_neg h2]
  have h3 : ((s : Int)).toNat = s := by omega
  have h4 : ((s : Int) + 10).toNat = s + 10 := by omega
  rw [h3, h4]
  rcases le_or_lt s xs.length with hs | hs
  · have hmin : min s xs.length = s := by omega
    rw [hmin]
    have : xs.take (min (s + 10) xs.length) = xs.take (s + 10) := by
      rw [List.take_eq_take]
      omega
    rw [this, List.drop_take]
    congr 1
    omega
  · have hmin : min s xs.length = xs.length := by omega
    rw [hmin]
    have hL : (xs.take (min (s + 10) xs.length)).length ≤ xs.length := by
      simp [List.length_take]
    rw [List.drop_eq_nil_of_le hL, List.drop_eq_nil_of_le (by omega), List.take_nil]

theorem paginate_pos (p : Int) (hp : 1 ≤ p) (xs : List α) :
    paginate_questions (some p) xs =
      (xs.drop ((p - 1).toNat * QUESTIONS_PER_PAGE)).take QUESTIONS_PER_PAGE := by
  unfold paginate_questions
  simp only [QUESTIONS_PER_PAGE, Option.getD]
  push_cast
  have hcast : (p - 1) * (10 : Int) = (((p - 1).toNat * 10 : Nat) : Int) := by
    omega
  rw [hcast]
  exact pySlice_nat_block xs ((p - 1).toNat * 10)

/-! ## Lemmas about the fuelled `LIKE` matcher

`likeGo_congr`: the result does not depend on the fuel once the fuel
exceeds the combined length of pattern and text, so `likeMatch` obeys
the intended recurrences (`likeMatch_pct_cons` etc.). -/

theorem likeGo_succ_nil (f : Nat) (t : List Char) :
    likeGo (f + 1) [] t = t.isEmpty := rfl

theorem likeGo_succ_pct_nil (f : Nat) (ps : List Char) :
    likeGo (f + 1) ('%' :: ps) [] = likeGo f ps [] := by
  simp [likeGo]

theorem likeGo_succ_pct_cons (f : Nat) (ps : List Char) (c : Char) (ts : List Char) :
    likeGo (f + 1) ('%' :: ps) (c :: ts) =
      (likeGo f ps (c :: ts) || likeGo f ('%' :: ps) ts) := by
  simp [likeGo]

theorem likeGo_succ_char_nil (f : Nat) (p : Char) (ps : List Char) (hp : p ≠ '%') :
    likeGo (f + 1) (p :: ps) [] = false := by
  simp [likeGo, hp]

theorem likeGo_succ_char_cons (f : Nat) (p : Char) (ps : List Char) (c : Char)
    (ts : List Char) (hp : p ≠ '%') :
    likeGo (f + 1) (p :: ps) (c :: ts) =
      ((if p = '_' then true else eqCI p c) && likeGo f ps ts) := by
  simp [likeGo, hp]

theorem likeGo_congr : ∀ (f g : Nat) (ps t : List Char),
    ps.length + t.length < f → ps.length + t.length < g →
    likeGo f ps t = likeGo g ps t := by
  intro f
  induction f with
  | zero => intro g ps t hf hg; exact absurd hf (Nat.not_lt_zero _)
  | succ f ih =>
    intro g ps t hf hg
    cases g with
    | zero => exact absurd hg (Nat.not_lt_zero _)
    | succ g =>
      cases ps with
      | nil => rfl
      | cons p ps' =>
        simp only [List.length_cons] at hf hg
        by_cases hp : p = '%'
        · subst hp
          cases t with
          | nil =>
            rw [likeGo_succ_pct_nil, likeGo_succ_pct_nil,
              ih g ps' [] (by omega) (by omega)]
          | cons c ts =>
            simp only [List.length_cons] at hf hg
            rw [likeGo_succ_pct_cons, likeGo_succ_pct_cons,
              ih g ps' (c :: ts) (by simp only [List.length_cons]; omega)
                (by simp only [List.length_cons]; omega),
              ih g ('%' :: ps') ts (by simp only [List.length_cons]; omega)
                (by simp only [List.length_cons]; omega)]
        · cases t with
          | nil =>
            rw [likeGo_succ_char_nil f p ps' hp, likeGo_succ_char_nil g p ps' hp]
          | cons c ts =>
            simp only [List.length_cons] at hf hg
            rw [likeGo_succ_char_cons f p ps' c ts hp,
              likeGo_succ_char_cons g p ps' c ts hp,
              ih g ps' ts (by omega) (by omega)]

theorem likeGo_eq_likeMatch (f : Nat) (ps t : List Char)
    (h : ps.length + t.length < f) : likeGo f ps t = likeMatch ps t :=
  likeGo_congr f (ps.length + t.length + 1) ps t h (by omega)

theorem likeMatch_nil (t : List Char) : likeMatch [] t = t.isEmpty := rfl

theorem likeMatch_pct_nil (ps : List Char) :
    likeMatch ('%' :: ps) [] = likeMatch ps [] := by
  show likeGo (('%' :: ps).length + ([] : List Char).length + 1) ('%' :: ps) [] = _
  simp only [List.length_cons, List.length_nil]
  rw [likeGo_succ_pct_nil]
  exact likeGo_eq_likeMatch _ _ _ (by simp only [List.length_nil]; omega)

theorem likeMatch_pct_cons (ps : List Char) (c : Char) (ts : List Char) :
    likeMatch ('%' :: ps) (c :: ts) =
      (likeMatch ps (c :: ts) || likeMatch ('%' :: ps) ts) := by
  show likeGo (('%' :: ps).length + (c :: ts).length + 1) ('%' :: ps) (c :: ts) = _
  simp only [List.length_cons]
  rw [likeGo_succ_pct_cons,
    likeGo_eq_likeMatch _ _ _ (by simp only [List.length_cons]; omega),
    likeGo_eq_likeMatch _ _ _ (by simp only [List.length_cons]; omega)]

theorem likeMatch_cons_nil (p : Char) (ps : List Char) (hp : p ≠ '%') :
    likeMatch (p :: ps) [] = false := by
  show likeGo ((p :: ps).length + ([] : List Char).length + 1) (p :: ps) [] = _
  simp only [List.length_cons, List.length_nil]
  rw [likeGo_succ_char_nil _ _ _ hp]

theorem likeMatch_cons_cons (p c : Char) (ps ts : List Char) (hp : p ≠ '%') :
    likeMatch (p :: ps) (c :: ts) =
      ((if p = '_' then true else eqCI p c) && likeMatch ps ts) := by
  show likeGo ((p :: ps).length + (c :: ts).length + 1) (p :: ps) (c :: ts) = _
  simp only [List.length_cons]
  rw [likeGo_succ_char_cons _ _ _ _ _ hp,
    likeGo_eq_likeMatch _ _ _ (by omega)]

/-! ## Wildcard-free `LIKE` patterns are substring tests -/

theorem likeMatch_pct_singleton (t : List Char) : likeMatch ['%'] t = true := by
  induction t with
  | nil => rfl
  | cons c ts ih => rw [likeMatch_pct_cons, ih, Bool.or_true]

theorem likeMatch_append_pct (term : List Char) (hw : noWildL term = true) :
    ∀ t : List Char,
      likeMatch (term ++ ['%']) t =
        (lowerList term).isPrefixOf (lowerList t) := by
  induction term with
  | nil =>
    intro t
    simp only [List.nil_append, likeMatch_pct_singleton, lowerList, List.map_nil]
    simp [List.isPrefixOf]
  | cons a term' ih =>
    intro t
    simp only [noWildL, List.all_cons, Bool.and_eq_true, Bool.not_eq_true'] at hw
    have ha1 : a ≠ '%' := by
      intro h
      rcases hw with ⟨⟨h1, _⟩, _⟩
      rw [h] at h1
      simp at h1
    have ha2 : a ≠ '_' := by
      intro h
      rcases hw with ⟨⟨_, h2⟩, _⟩
      rw [h] at h2
      simp at h2
    have hw' : noWildL term' = true := by
      rcases hw with ⟨_, h⟩
      simpa [noWildL] using h
    cases t with
    | nil =>
      rw [List.cons_append, likeMatch_cons_nil _ _ ha1]
      simp [lowerList, List.isPrefixOf]
    | cons c ts =>
      rw [List.cons_append, likeMatch_cons_cons _ _ _ _ ha1, if_neg ha2, ih hw' ts]
      simp only [lowerList, List.map_cons, List.isPrefixOf_cons₂]
      rfl

theorem likeMatch_wrapped (term : List Char) (hw : noWildL term = true) :
    ∀ t : List Char,
      likeMatch ('%' :: (term ++ ['%'])) t =
        (lowerList t).tails.any (fun s => (lowerList term).isPrefixOf s) := by
  intro t
  induction t with
  | nil =>
    rw [likeMatch_pct_nil, likeMatch_append_pct term hw []]
    simp [lowerList]
  | cons c ts ih =>
    rw [likeMatch_pct_cons, likeMatch_append_pct term hw (c :: ts), ih]
    simp only [lowerList, List.map_cons, List.tails_cons, List.any_cons]

/-! ## Lemmas about Python dicts and the id ordering -/

theorem pyDictInsert_of_notMem (m : List (Nat × String)) (k : Nat) (v : String)
    (h : ∀ x ∈ m, x.1 ≠ k) : pyDictInsert m k v = m ++ [(k, v)] := by
  unfold pyDictInsert
  rw [if_neg]
  simp only [List.any_eq_true, not_exists, not_and]
  intro x hx
  simpa using h x hx

theorem pyDict_foldl_eq (ps : List (Nat × String)) :
    ∀ acc : List (Nat × String), ((acc ++ ps).map Prod.fst).Nodup →
      ps.foldl (fun m p => pyDictInsert m p.1 p.2) acc = acc ++ ps := by
  induction ps with
  | nil => intro acc _; simp
  | cons p ps' ih =>
    intro acc hnd
    have hnotin : ∀ x ∈ acc, x.1 ≠ p.1 := by
      intro x hx heq
      rw [List.map_append, List.nodup_append] at hnd
      rcases hnd with ⟨_, _, hdisj⟩
      refine hdisj (List.mem_map_of_mem Prod.fst hx) ?_
      rw [List.map_cons, heq]
      exact List.mem_cons_self _ _
    have hstep : pyDictInsert acc p.1 p.2 = acc ++ [p] := by
      rw [pyDictInsert_of_notMem acc p.1 p.2 hnotin]
    rw [List.foldl_cons, hstep, ih (acc ++ [p])
      (by rwa [List.append_assoc, List.singleton_append]),
      List.append_assoc, List.singleton_append]

theorem pyDict_of_nodup (ps : List (Nat × String))
    (h : (ps.map Prod.fst).Nodup) : pyDict ps = ps := by
  unfold pyDict
  rw [pyDict_foldl_eq ps [] (by simpa using h)]
  simp

theorem length_insertById (q : Question) (xs : List Question) :
    (insertById q xs).length = xs.length + 1 := by
  induction xs with
  | nil => rfl
  | cons x xs ih =>
    unfold insertById
    by_cases h : q.id ≤ x.id
    · rw [if_pos h]; simp
    · rw [if_neg h]; simp [ih]

theorem length_orderById (qs : List Question) :
    (orderById qs).length = qs.length := by
  unfold orderById
  induction qs with
  | nil => rfl
  | cons q qs ih =>
    rw [List.foldr_cons, length_insertById, ih, List.length_cons]

end Trivia

namespace Trivia

/-! ## Claim theorems -/

/-- Claim C2: for every requested page number `p ≥ 1` (with 1 the
default when the parameter is absent) and every input list of formatted
records, the pagination helper returns exactly the slice
`[(p-1)*10, p*10)` of the list — `min 10 (L - 10*(p-1))` items, in the
original ordering. -/
theorem C2_paginate_slice {α : Type} (p : Int) (hp : 1 ≤ p) (xs : List α) :
    paginate_questions (some p) xs =
      (xs.drop ((p - 1).toNat * QUESTIONS_PER_PAGE)).take QUESTIONS_PER_PAGE ∧
    (paginate_questions (some p) xs).length =
      min QUESTIONS_PER_PAGE (xs.length - (p - 1).toNat * QUESTIONS_PER_PAGE) ∧
    paginate_questions (none : Option Int) xs = paginate_questions (some 1) xs := by
  refine ⟨paginate_pos p hp xs, ?_, rfl⟩
  rw [paginate_pos p hp xs, List.length_take, List.length_drop]

/-- Witness for C2: page 2 of a 15-element list is its last five
elements. -/
theorem C2_paginate_slice_witness :
    paginate_questions (some 2) (List.range 15) = [10, 11, 12, 13, 14] ∧
    (paginate_questions (some 2) (List.range 15)).length = 5 :=
  ⟨((C2_paginate_slice 2 (by decide) (List.range 15)).1).trans (by decide),
   by rw [(C2_paginate_slice 2 (by decide) (List.range 15)).2.1]; decide⟩

/-- Claim C5: a requested page past the end of the question list makes
the pagination helper return an empty slice, which `GET /questions`
converts into the 404 not-found error response. -/
theorem C5_past_end_page_404 (db : DB) (p : Int) (hp : 1 ≤ p)
    (hpast : db.questions.length ≤ (p - 1).toNat * QUESTIONS_PER_PAGE) :
    paginate_questions (some p) (orderById db.questions) = [] ∧
    get_questions db (some p) = not_found ∧
    not_found.status = 404 := by
  have hlen : (orderById db.questions).length ≤ (p - 1).toNat * QUESTIONS_PER_PAGE := by
    rw [length_orderById]
    exact hpast
  have hempty : paginate_questions (some p) (orderById db.questions) = [] := by
    rw [paginate_pos p hp, List.drop_eq_nil_of_le hlen, List.take_nil]
  refine ⟨hempty, ?_, rfl⟩
  simp only [get_questions]
  rw [hempty]
  rfl

/-- Witness for C5: one stored question, page 2 requested. -/
theorem C5_past_end_page_404_witness :
    get_questions ⟨[⟨1, "Q", "A", "1", 1⟩], []⟩ (some 2) = not_found :=
  (C5_past_end_page_404 ⟨[⟨1, "Q", "A", "1", 1⟩], []⟩ 2 (by decide) (by decide)).2.1

/-- Claim C8: requesting page 0 always produces the empty slice (Python
`xs[-10:0]`), while a negative page slices relative to the end of the
list: page `-1` on a 20-element list returns the non-empty ten-element
block `xs[0:10]` rather than an empty slice or an error. -/
theorem C8_nonpositive_pages :
    (∀ xs : List Question, paginate_questions (some 0) xs = []) ∧
    paginate_questions (some (-1)) (List.range 20) = List.range 10 ∧
    List.range 10 ≠ [] := by
  refine ⟨?_, by decide, by decide⟩
  intro xs
  unfold paginate_questions pySlice pySliceIdx
  norm_num [QUESTIONS_PER_PAGE]

end Trivia

namespace Trivia

/-- Claim C6: `GET /categories` answers with the 404 not-found envelope
when the category table is empty; with `N > 0` categories (their ids
distinct, as primary keys are) it answers success with a `categories`
mapping of exactly `N` entries, keyed by category id with the type label
as value. -/
theorem C6_get_categories (db : DB) :
    (db.categories = [] → get_categories db = not_found) ∧
    ((db.categories.map (fun c => c.id)).Nodup → db.categories ≠ [] →
      get_categories db =
        ⟨200, [("success", Field.fBool true),
               ("categories",
                Field.fCatMap (db.categories.map (fun c => (c.id, c.type))))]⟩ ∧
      (db.categories.map (fun c => (c.id, c.type))).length =
        db.categories.length) := by
  constructor
  · intro h
    unfold get_categories
    rw [h]
    rfl
  · intro hnd hne
    have hlen : db.categories.length ≠ 0 := by
      simpa [List.length_eq_zero] using hne
    have hdict : categoriesDict db.categories =
        db.categories.map (fun c => (c.id, c.type)) := by
      unfold categoriesDict
      apply pyDict_of_nodup
      rw [List.map_map]
      exact hnd
    refine ⟨?_, by simp⟩
    unfold get_categories
    rw [if_neg (by simpa using hlen), hdict]

/-- Witness for C6: the empty table 404s; two categories come back as a
two-entry id-keyed mapping. -/
theorem C6_get_categories_witness :
    get_categories ⟨[], []⟩ = not_found ∧
    get_categories ⟨[], [⟨1, "Science"⟩, ⟨2, "Art"⟩]⟩ =
      ⟨200, [("success", Field.fBool true),
             ("categories", Field.fCatMap [(1, "Science"), (2, "Art")])]⟩ :=
  ⟨(C6_get_categories ⟨[], []⟩).1 rfl,
   by
     have h := ((C6_get_categories ⟨[], [⟨1, "Science"⟩, ⟨2, "Art"⟩]⟩).2
       (by decide) (by decide)).1
     rw [h]
     rfl⟩

/-- Claim C10: for an existing category id, `GET /categories/{id}/questions`
reports `total_questions` as the size of the *whole* question table,
while `questions` lists only the rows whose `category` column equals the
decimal string of the id. -/
theorem C10_search_category (db : DB) (catId : Nat) (c : Category)
    (h : db.categories.filter (fun x => x.id == catId) = [c]) :
    search_category db catId =
      ⟨200, [("success", Field.fBool true),
             ("questions", Field.fQuestions
               (db.questions.filter (fun q => q.category == toString catId))),
             ("total_questions", Field.fNat db.questions.length),
             ("current_category", Field.fStr c.type)]⟩ := by
  unfold search_category one_or_none
  rw [h]

/-- Witness for C10: category 1 holds two of the three stored questions,
yet `total_questions` reports 3. -/
theorem C10_search_category_witness :
    search_category
      ⟨[⟨1, "Q1", "A1", "1", 1⟩, ⟨2, "Q2", "A2", "1", 2⟩, ⟨3, "Q3", "A3", "2", 3⟩],
       [⟨1, "Science"⟩, ⟨2, "Art"⟩]⟩ 1 =
      ⟨200, [("success", Field.fBool true),
             ("questions", Field.fQuestions
               [⟨1, "Q1", "A1", "1", 1⟩, ⟨2, "Q2", "A2", "1", 2⟩]),
             ("total_questions", Field.fNat 3),
             ("current_category", Field.fStr "Science")]⟩ :=
  (C10_search_category
      ⟨[⟨1, "Q1", "A1", "1", 1⟩, ⟨2, "Q2", "A2", "1", 2⟩, ⟨3, "Q3", "A3", "2", 3⟩],
       [⟨1, "Science"⟩, ⟨2, "Art"⟩]⟩ 1 ⟨1, "Science"⟩ (by decide)).trans (by decide)

/-- Claim C9: a `searchTerm` present in the body but equal to the empty
string is Python-falsy and is treated exactly like an absent
`searchTerm`: `POST /questions` takes the insertion branch and appends a
question built from the remaining body fields. -/
theorem C9_empty_searchTerm_inserts (db : DB) (pageArg : Option Int)
    (q a c : String) (d : Nat) (nid : Nat) :
    post_or_search_question db pageArg ⟨q, d, c, a, some ""⟩ nid =
      post_or_search_question db pageArg ⟨q, d, c, a, none⟩ nid ∧
    (post_or_search_question db pageArg ⟨q, d, c, a, none⟩ nid).2.questions =
      db.questions ++ [⟨nid, q, a, c, d⟩] :=
  ⟨rfl, rfl⟩

end Trivia

namespace Trivia

/-- Claim C3 (behaviour at the failing input): deleting an id with no
stored question — here id 5 on an empty store, the same state a second
delete of a just-deleted id sees — yields the 422 unprocessable
envelope, not the 400 bad-request envelope: the `abort(400)` raised
inside the handler's `try:` block is caught by its own bare `except:`,
which aborts 422 instead.  The response is still never a success. -/
theorem C3_delete_missing_is_422 :
    Question.get ⟨[], []⟩ 5 = none ∧
    delete_question ⟨[], []⟩ 5 = (unprocessable, ⟨[], []⟩) ∧
    (delete_question ⟨[], []⟩ 5).1.status = 422 ∧
    (delete_question ⟨[], []⟩ 5).1.status ≠ 400 ∧
    lookupField (delete_question ⟨[], []⟩ 5).1.body "success" =
      some (Field.fBool false) ∧
    (delete_question (delete_question ⟨[⟨5, "Q", "A", "1", 1⟩], []⟩ 5).2 5).1 =
      unprocessable := by
  refine ⟨rfl, rfl, rfl, by decide, rfl, rfl⟩

/-- Claim C1 (behaviour at the failing input): with questions 1 and 2
stored, `previous_questions = [1]` and quiz category 0, the quiz
endpoint can answer with question 1 again — `random.choice` draws from
the *entire* candidate set, so the returned id may lie in
`previous_questions`; only the list lengths are ever compared. -/
theorem C1_quiz_reserves_previous :
    lookupField (quizzes ⟨[⟨1, "Q1", "A1", "1", 1⟩, ⟨2, "Q2", "A2", "1", 1⟩], []⟩
        ⟨[1], 0⟩ 0).body "question" =
      some (Field.fQuestion ⟨1, "Q1", "A1", "1", 1⟩) ∧
    (⟨1, "Q1", "A1", "1", 1⟩ : Question).id ∈
      (⟨[1], 0⟩ : QuizBody).previous_questions ∧
    (quizzes ⟨[⟨1, "Q1", "A1", "1", 1⟩, ⟨2, "Q2", "A2", "1", 1⟩], []⟩
        ⟨[1], 0⟩ 0).status = 200 := by
  refine ⟨rfl, by decide, rfl⟩

/-- Claim C7 (counterexample): the add-question success response of
`POST /questions` (status 200) carries no `success` member at all. -/
theorem C7_insert_body_lacks_success :
    hasSuccessBool (post_or_search_question ⟨[], []⟩ (none : Option Int)
      ⟨"What is it?", 1, "1", "It", none⟩ 7).1 = false ∧
    (post_or_search_question ⟨[], []⟩ (none : Option Int)
      ⟨"What is it?", 1, "1", "It", none⟩ 7).1.status = 200 := by
  refine ⟨rfl, rfl⟩

/-- Claim C7 (amended): every endpoint response body — each error
envelope and every success branch — carries a boolean `success` member,
with the single exception of the insertion branch of `POST /questions`,
which carries one exactly when the request's `searchTerm` is truthy
(i.e. never on the insert branch). -/
theorem C7_success_field (db : DB) (pageArg : Option Int) (qid : Nat)
    (b : PostBody) (nid : Nat) (catId : Nat) (qb : QuizBody) (pick : Nat) :
    hasSuccessBool (get_categories db) = true ∧
    hasSuccessBool (get_questions db pageArg) = true ∧
    hasSuccessBool (delete_question db qid).1 = true ∧
    hasSuccessBool (post_or_search_question db pageArg b nid).1 =
      truthy b.searchTerm ∧
    hasSuccessBool (search_category db catId) = true ∧
    hasSuccessBool (quizzes db qb pick) = true ∧
    hasSuccessBool not_found = true ∧
    hasSuccessBool unprocessable = true ∧
    hasSuccessBool bad_request = true ∧
    hasSuccessBool not_allowed = true ∧
    hasSuccessBool internal_server_error = true := by
  refine ⟨?_, ?_, ?_, ?_, ?_, ?_, rfl, rfl, rfl, rfl, rfl⟩
  · unfold get_categories
    split <;> rfl
  · simp only [get_questions]
    split <;> rfl
  · unfold delete_question delete_question_try
    cases hq : Question.get db qid <;> rfl
  · unfold post_or_search_question
    split
    · rename_i h
      rw [h]
      rfl
    · rename_i h
      simp only [Bool.not_eq_true] at h
      rw [h]
      rfl
  · unfold search_category one_or_none
    cases hcs : db.categories.filter (fun c => c.id == catId) with
    | nil => rfl
    | cons c rest =>
      cases rest with
      | nil => rfl
      | cons d rest' => rfl
  · simp only [quizzes]
    split <;> (split <;> first | rfl | (split <;> rfl))

end Trivia

namespace Trivia

/-- Claim C4 (counterexample): the search term is spliced into an
`ilike` pattern, so `LIKE` wildcards keep their meaning: searching `%`
selects the stored question `"A"` although `"A"` does not contain `%`
as a substring — the selection is not the case-insensitive-substring
set for every term. -/
theorem C4_wildcard_counterexample :
    searchSelection ⟨[⟨1, "A", "a", "1", 1⟩], []⟩ "%" = [⟨1, "A", "a", "1", 1⟩] ∧
    (orderById (⟨[⟨1, "A", "a", "1", 1⟩], []⟩ : DB).questions).filter
      (fun q => containsCI "%" q.question) = [] ∧
    searchSelection ⟨[⟨1, "A", "a", "1", 1⟩], []⟩ "%" ≠
      (orderById (⟨[⟨1, "A", "a", "1", 1⟩], []⟩ : DB).questions).filter
        (fun q => containsCI "%" q.question) := by
  refine ⟨by decide, by decide, by decide⟩

/-- Claim C4 (amended): for every non-empty search term free of the SQL
`LIKE` wildcards `%` and `_`, the search selects exactly the questions
whose *question text* contains the term as a case-insensitive substring
(answer text is never examined), and `POST /questions` returns that
selection, paginated, together with its total count. -/
theorem C4_search_ci_substring (db : DB) (pageArg : Option Int) (term : String)
    (b : PostBody) (nid : Nat)
    (hw : noWildL term.toList = true) (hne : term ≠ "")
    (hb : b.searchTerm = some term) :
    searchSelection db term =
      (orderById db.questions).filter (fun q => containsCI term q.question) ∧
    post_or_search_question db pageArg b nid =
      (⟨200, [("success", Field.fBool true),
              ("questions", Field.fQuestions
                (paginate_questions pageArg (searchSelection db term))),
              ("total_questions", Field.fNat (searchSelection db term).length)]⟩,
       db) := by
  have hsel : searchSelection db term =
      (orderById db.questions).filter (fun q => containsCI term q.question) := by
    unfold searchSelection
    apply List.filter_congr
    intro q _
    rw [likeMatch_wrapped term.toList hw q.question.toList]
    rfl
  refine ⟨hsel, ?_⟩
  have htr : truthy (some term) = true := by
    simp only [truthy, Bool.not_eq_eq_eq_not, Bool.not_false, beq_iff_eq]
    simpa using hne
  unfold post_or_search_question
  rw [hb, htr]
  rfl

/-- Witness for C4: searching `tit` returns exactly the question whose
text contains `Title`, case-insensitively. -/
theorem C4_search_ci_substring_witness :
    searchSelection
      ⟨[⟨1, "The Title question", "ans", "1", 1⟩, ⟨2, "Other", "ans", "1", 1⟩], []⟩
      "tit" = [⟨1, "The Title question", "ans", "1", 1⟩] :=
  ((C4_search_ci_substring
      ⟨[⟨1, "The Title question", "ans", "1", 1⟩, ⟨2, "Other", "ans", "1", 1⟩], []⟩
      none "tit" ⟨"", 0, "", "", some "tit"⟩ 9
      (by decide) (by decide) rfl).1).trans (by decide)

end Trivia
